import Mathlib

/-!
Shallow embedding of the task orchestration and liveness-monitoring core of
the browser-use multi-user API server.

Sources embedded:
* `src/browser_use/api/monitoring.py` — `TaskStatus`, `TaskMetrics`,
  `TaskMonitor` with `register_task`, `update_task_status`,
  `update_task_progress`, `_check_stalled_tasks`, `_cleanup_old_tasks`.
* `src/browser_use/api/server.py` — the `active_tasks` registry with the
  `execute_task` admission check and the `cancel_task` endpoint.

Wall-clock instants (`datetime.now(timezone.utc)`) are passed explicitly as
`Nat` seconds; Python's `(a - b).total_seconds() > c` comparisons with `c ≥ 0`
are modelled by truncated `Nat` subtraction, which agrees with the float
comparison whenever the threshold is non-negative (a negative difference and a
truncated-to-zero difference both fail the strict comparison).
-/

namespace BrowserUse

/-- The `TaskStatus` enumeration from `monitoring.py` (also the closed set of
status strings that `server.py` ever stores in `active_tasks`). -/
inductive TaskStatus where
  | queued
  | running
  | completed
  | error
  | cancelled
  | stalled
deriving DecidableEq, Repr

/-- The `TaskMetrics` dataclass from `monitoring.py`. Timestamps are `Nat`
seconds; `duration_seconds` is an `Int` (a difference of timestamps).
The write-only `resource_usage` dict is omitted: the code never reads it. -/
structure TaskMetrics where
  task_id : String
  user_id : String
  status : TaskStatus
  steps_completed : Nat
  steps_target : Nat
  created_at : Nat
  started_at : Option Nat := none
  completed_at : Option Nat := none
  last_activity : Option Nat := none
  duration_seconds : Int := 0
  error_message : Option String := none
  stall_count : Nat := 0
deriving DecidableEq, Repr

/-- Association-list lookup, first match wins (Python dict lookup; keys are
unique in every state the code constructs). -/
def lookupA {α : Type} : List (String × α) → String → Option α
  | [], _ => none
  | e :: rest, k => if e.1 = k then some e.2 else lookupA rest k

/-- Apply `f` to the value stored at key `k` (Python in-place mutation of
`dict[k]`'s fields). -/
def updateA {α : Type} : List (String × α) → String → (α → α) →
    List (String × α)
  | [], _, _ => []
  | e :: rest, k, f => (if e.1 = k then (e.1, f e.2) else e) :: updateA rest k f

/-- Whether the key is present (Python `k in dict`). -/
def containsA {α : Type} (l : List (String × α)) (k : String) : Bool :=
  (lookupA l k).isSome

/-- Python `dict[k] = v`: replace in place if the key exists, append
otherwise. -/
def insertA {α : Type} (l : List (String × α)) (k : String) (v : α) :
    List (String × α) :=
  if containsA l k then updateA l k (fun _ => v) else l ++ [(k, v)]

/-- The `TaskMonitor` class from `monitoring.py`: configuration plus the
`task_metrics` registry (the async loop machinery is modelled by calling the
per-tick scans explicitly). -/
structure TaskMonitor where
  stall_timeout : Nat := 60
  max_stall_checks : Nat := 3
  cleanup_interval : Nat := 300
  task_metrics : List (String × TaskMetrics) := []
deriving DecidableEq, Repr

/-- Method `TaskMonitor.register_task`: store a fresh `QUEUED` record. -/
def register_task (m : TaskMonitor) (task_id user_id : String)
    (max_steps : Nat) (now : Nat) : TaskMonitor :=
  let metrics : TaskMetrics :=
    { task_id := task_id
      user_id := user_id
      status := TaskStatus.queued
      steps_completed := 0
      steps_target := max_steps
      created_at := now }
  { m with task_metrics := insertA m.task_metrics task_id metrics }

/-- Python truthiness of the `error_message` argument in
`update_task_status`: `if error_message:` is `False` for `None` and for the
empty string. -/
def errTruthy : Option String → Bool
  | none => false
  | some s => s ≠ ""

/-- The record-level effect of `TaskMonitor.update_task_status`
(lines 107–129 of `monitoring.py`), given the wall-clock instant `now`. -/
def applyStatusUpdate (metrics : TaskMetrics) (status : TaskStatus)
    (steps_completed : Option Nat) (error_message : Option String)
    (now : Nat) : TaskMetrics :=
  let old_status := metrics.status
  let metrics := { metrics with status := status, last_activity := some now }
  let metrics :=
    match steps_completed with
    | some s => { metrics with steps_completed := s }
    | none => metrics
  let metrics :=
    if errTruthy error_message then
      { metrics with error_message := error_message }
    else metrics
  if status = TaskStatus.running ∧ old_status = TaskStatus.queued then
    { metrics with started_at := some now }
  else if status = TaskStatus.completed ∨ status = TaskStatus.error ∨
      status = TaskStatus.cancelled then
    let metrics := { metrics with completed_at := some now }
    match metrics.started_at with
    | some s => { metrics with duration_seconds := (now : Int) - (s : Int) }
    | none => metrics
  else metrics

/-- Method `TaskMonitor.update_task_status`: no-op on an unknown id, otherwise
update the stored record in place. -/
def update_task_status (m : TaskMonitor) (task_id : String)
    (status : TaskStatus) (steps_completed : Option Nat)
    (error_message : Option String) (now : Nat) : TaskMonitor :=
  if containsA m.task_metrics task_id then
    { m with task_metrics := (updateA m.task_metrics task_id
        fun metrics =>
          applyStatusUpdate metrics status steps_completed error_message now) }
  else m

/-- The record-level effect of `TaskMonitor.update_task_progress`: accept
only strictly larger step counts; an accepted update refreshes
`last_activity` and resets `stall_count`. -/
def applyProgress (metrics : TaskMetrics) (steps_completed : Nat)
    (now : Nat) : TaskMetrics :=
  if steps_completed > metrics.steps_completed then
    { metrics with
        steps_completed := steps_completed
        last_activity := some now
        stall_count := 0 }
  else metrics

/-- Method `TaskMonitor.update_task_progress`: no-op on an unknown id. -/
def update_task_progress (m : TaskMonitor) (task_id : String)
    (steps_completed : Nat) (now : Nat) : TaskMonitor :=
  if containsA m.task_metrics task_id then
    { m with task_metrics := (updateA m.task_metrics task_id
        fun metrics => applyProgress metrics steps_completed now) }
  else m

/-- The stall error message built in `_check_stalled_tasks`. -/
def stallMessage (inactive_seconds : Nat) : String :=
  "Task stalled dopo " ++ toString inactive_seconds ++ "s di inattività"

/-- The per-record effect of one `_check_stalled_tasks` tick at instant
`now`: skip non-running records and records without `last_activity`;
otherwise, if inactive longer than `stall_timeout`, bump `stall_count`, and
escalate to `STALLED` (via the status-update routine) once the counter
reaches `max_stall_checks`. -/
def stallStep (stall_timeout max_stall_checks now : Nat)
    (metrics : TaskMetrics) : TaskMetrics :=
  if metrics.status ≠ TaskStatus.running then metrics
  else
    match metrics.last_activity with
    | none => metrics
    | some la =>
      let inactive_seconds := now - la
      if inactive_seconds > stall_timeout then
        let metrics := { metrics with stall_count := metrics.stall_count + 1 }
        if metrics.stall_count ≥ max_stall_checks then
          applyStatusUpdate metrics TaskStatus.stalled none
            (some (stallMessage inactive_seconds)) now
        else metrics
      else metrics

/-- Method `TaskMonitor._check_stalled_tasks`: one tick of the liveness scan over
every record (each record's escalation touches only that record, so the
in-place loop is a pointwise map). -/
def check_stalled_tasks (m : TaskMonitor) (now : Nat) : TaskMonitor :=
  { m with task_metrics := (m.task_metrics.map
      fun e => (e.1, stallStep m.stall_timeout m.max_stall_checks now e.2)) }

/-- The retention window hard-coded in `_cleanup_old_tasks` (one hour). -/
def cleanup_age : Nat := 3600

/-- The removal test of `_cleanup_old_tasks`: only `COMPLETED`, `ERROR`,
`CANCELLED` records with a `completed_at` older than the window are
collected. -/
def cleanupRemoves (now : Nat) (metrics : TaskMetrics) : Bool :=
  (metrics.status == TaskStatus.completed ||
    metrics.status == TaskStatus.error ||
    metrics.status == TaskStatus.cancelled) &&
  match metrics.completed_at with
  | none => false
  | some c => decide (now - c > cleanup_age)

/-- Method `TaskMonitor._cleanup_old_tasks`: snapshot the removal candidates, then
delete them (equivalently, filter the registry). -/
def cleanup_old_tasks (m : TaskMonitor) (now : Nat) : TaskMonitor :=
  { m with task_metrics :=
      m.task_metrics.filter (fun e => ! cleanupRemoves now e.2) }

/-! Section: Server-side registry (`server.py`) -/

/-- The FastAPI error raised by `server.py` endpoints (`HTTPException`):
409 is the spec's `ConflictError`, 404 its `NotFoundError`, 400 its
`InvalidStateError`. -/
structure HTTPError where
  status_code : Nat
  detail : String
deriving DecidableEq, Repr

/-- One entry of the global `active_tasks` dict in `server.py` (the fields
written at registration plus those added later by the background runner and
the cancel endpoint; absent dict keys are `none`). -/
structure TaskInfo where
  task_id : String
  user_id : String
  session_id : String
  task : String
  status : TaskStatus
  steps_completed : Nat
  created_at : Nat
  max_steps : Nat
  model : String
  completed_at : Option Nat := none
  error_message : Option String := none
deriving DecidableEq, Repr

/-- The server's global `active_tasks` registry. -/
abbrev ActiveTasks : Type := List (String × TaskInfo)

/-- The admission check plus registration of `execute_task`
(`server.py` lines 214–248): reject with HTTP 409 when the user already has
a record with status `"running"`, otherwise insert a fresh `"queued"`
record. The generated `task_id`/`session_id` and request payload are taken
as arguments. -/
def execute_task (tasks : ActiveTasks) (task_id user_id session_id
    task : String) (max_steps : Nat) (model : String) (now : Nat) :
    Except HTTPError ActiveTasks :=
  let user_active_tasks := tasks.filter
    (fun e => e.2.user_id == user_id && e.2.status == TaskStatus.running)
  if user_active_tasks ≠ [] then
    Except.error ⟨409,
      "Utente " ++ user_id ++
        " ha già un task attivo. Completare o cancellare prima."⟩
  else
    Except.ok (insertA tasks task_id
      { task_id := task_id
        user_id := user_id
        session_id := session_id
        task := task
        status := TaskStatus.queued
        steps_completed := 0
        created_at := now
        max_steps := max_steps
        model := model })

/-- The `cancel_task` endpoint (`server.py` lines 388–420): 404 on an
unknown id, 400 when the status is outside `{"queued","running"}`,
otherwise mark the record `"cancelled"` with `completed_at` set — the
registry update happens synchronously in the endpoint, before and
independently of the executor observing its advisory stop flag. -/
def cancel_task (tasks : ActiveTasks) (task_id : String) (now : Nat) :
    Except HTTPError ActiveTasks :=
  match lookupA tasks task_id with
  | none => Except.error ⟨404, "Task non trovato"⟩
  | some task_info =>
    if task_info.status ≠ TaskStatus.queued ∧
        task_info.status ≠ TaskStatus.running then
      Except.error ⟨400, "Task non può essere cancellato"⟩
    else
      Except.ok (updateA tasks task_id fun info =>
        { info with
            status := TaskStatus.cancelled
            completed_at := some now })

/-! Section: Derived trace combinators -/

/-- Iterate the liveness scan over a list of tick instants. -/
def run_ticks (m : TaskMonitor) (times : List Nat) : TaskMonitor :=
  times.foldl check_stalled_tasks m

/-- One executor round for task `tid`: a progress report at some instant
followed by a monitor tick at a (later) instant.  `r = (steps, report
instant, tick instant)`. -/
def progress_round (tid : String) (m : TaskMonitor) (r : Nat × Nat × Nat) :
    TaskMonitor :=
  check_stalled_tasks (update_task_progress m tid r.1 r.2.1) r.2.2

/-- Iterate executor rounds. -/
def run_rounds (m : TaskMonitor) (tid : String)
    (rounds : List (Nat × Nat × Nat)) : TaskMonitor :=
  rounds.foldl (progress_round tid) m

/-! Section: Association-list lemmas -/

/-- Keys of an association list. -/
def keysA {α : Type} (l : List (String × α)) : List String :=
  l.map Prod.fst

theorem lookupA_updateA {α : Type} (l : List (String × α)) (k : String)
    (f : α → α) (k' : String) :
    lookupA (updateA l k f) k' =
      if k' = k then (lookupA l k).map f else lookupA l k' := by
  induction l with
  | nil =>
    simp only [updateA, lookupA]
    split <;> rfl
  | cons e rest ih =>
    by_cases he : e.1 = k
    · by_cases hk : k' = k
      · subst hk
        simp [updateA, lookupA, he, ih]
      · have hne : e.1 ≠ k' := fun h => hk (h.symm.trans he)
        have hk2 : ¬ k = k' := fun h => hk h.symm
        simp [updateA, lookupA, he, hne, hk, hk2, ih]
    · by_cases hk : k' = k
      · subst hk
        simp [updateA, lookupA, he, ih]
      · by_cases he' : e.1 = k'
        · simp [updateA, lookupA, he, he', hk]
        · simp [updateA, lookupA, he, he', hk, ih]

theorem lookupA_map_snd {α β : Type} (l : List (String × α)) (g : α → β)
    (k : String) :
    lookupA (l.map fun e => (e.1, g e.2)) k = (lookupA l k).map g := by
  induction l with
  | nil => rfl
  | cons e rest ih =>
    by_cases hek : e.1 = k
    · simp [lookupA, hek]
    · simp [lookupA, hek, ih]

theorem containsA_eq_isSome {α : Type} (l : List (String × α)) (k : String) :
    containsA l k = (lookupA l k).isSome := rfl

theorem lookupA_eq_none_of_not_mem {α : Type} (l : List (String × α))
    (k : String) (h : k ∉ keysA l) : lookupA l k = none := by
  induction l with
  | nil => rfl
  | cons e rest ih =>
    simp only [keysA, List.map_cons, List.mem_cons, not_or] at h
    have hne : e.1 ≠ k := fun hk => h.1 hk.symm
    simp only [lookupA, if_neg hne]
    exact ih (by simpa [keysA] using h.2)

theorem keysA_filter_subset {α : Type} (l : List (String × α))
    (p : String × α → Bool) : keysA (l.filter p) ⊆ keysA l := by
  intro k hk
  simp only [keysA, List.mem_map] at hk ⊢
  obtain ⟨e, he, hek⟩ := hk
  exact ⟨e, List.mem_of_mem_filter he, hek⟩

theorem lookupA_filter {α : Type} (l : List (String × α)) (p : α → Bool)
    (k : String) (hnd : (keysA l).Nodup) :
    lookupA (l.filter fun e => p e.2) k =
      match lookupA l k with
      | some v => if p v then some v else none
      | none => none := by
  induction l with
  | nil => rfl
  | cons e rest ih =>
    have hnd2 : e.1 ∉ keysA rest ∧ (keysA rest).Nodup := by
      simpa [keysA, List.nodup_cons] using hnd
    by_cases hek : e.1 = k
    · subst hek
      by_cases hp : p e.2
      · simp [List.filter_cons, hp, lookupA]
      · have hfil : lookupA (rest.filter fun e' => p e'.2) e.1 = none :=
          lookupA_eq_none_of_not_mem _ _
            (fun hmem => hnd2.1 (keysA_filter_subset rest _ hmem))
        simp [List.filter_cons, hp, lookupA, hfil]
    · by_cases hp : p e.2
      · simp [List.filter_cons, hp, lookupA, hek, ih hnd2.2]
      · simp [List.filter_cons, hp, lookupA, hek, ih hnd2.2]

theorem updateA_updateA {α : Type} (l : List (String × α)) (k : String)
    (f g : α → α) :
    updateA (updateA l k f) k g = updateA l k (fun v => g (f v)) := by
  induction l with
  | nil => rfl
  | cons e rest ih =>
    by_cases hek : e.1 = k
    · simp [updateA, hek, ih]
    · simp [updateA, hek, ih]

/-! Section: Operation-level lemmas -/

theorem lookup_update_task_status (m : TaskMonitor) (tid : String)
    (st : TaskStatus) (steps : Option Nat) (err : Option String) (now : Nat)
    (tid' : String) :
    lookupA (update_task_status m tid st steps err now).task_metrics tid' =
      if tid' = tid then
        (lookupA m.task_metrics tid).map
          (fun met => applyStatusUpdate met st steps err now)
      else lookupA m.task_metrics tid' := by
  unfold update_task_status
  cases h : lookupA m.task_metrics tid with
  | none =>
    have hc : containsA m.task_metrics tid = false := by
      rw [containsA_eq_isSome, h]; rfl
    rw [hc]
    simp only [Bool.false_eq_true, if_false]
    split
    · next heq => rw [heq, h]; rfl
    · rfl
  | some v =>
    have hc : containsA m.task_metrics tid = true := by
      rw [containsA_eq_isSome, h]; rfl
    rw [hc]
    simp [lookupA_updateA, h]

theorem lookup_update_task_progress (m : TaskMonitor) (tid : String)
    (steps now : Nat) (tid' : String) :
    lookupA (update_task_progress m tid steps now).task_metrics tid' =
      if tid' = tid then
        (lookupA m.task_metrics tid).map
          (fun met => applyProgress met steps now)
      else lookupA m.task_metrics tid' := by
  unfold update_task_progress
  cases h : lookupA m.task_metrics tid with
  | none =>
    have hc : containsA m.task_metrics tid = false := by
      rw [containsA_eq_isSome, h]; rfl
    rw [hc]
    simp only [Bool.false_eq_true, if_false]
    split
    · next heq => rw [heq, h]; rfl
    · rfl
  | some v =>
    have hc : containsA m.task_metrics tid = true := by
      rw [containsA_eq_isSome, h]; rfl
    rw [hc]
    simp [lookupA_updateA, h]

theorem lookup_check_stalled (m : TaskMonitor) (now : Nat) (tid : String) :
    lookupA (check_stalled_tasks m now).task_metrics tid =
      (lookupA m.task_metrics tid).map
        (stallStep m.stall_timeout m.max_stall_checks now) := by
  unfold check_stalled_tasks
  exact lookupA_map_snd m.task_metrics _ tid

theorem config_update_task_status (m : TaskMonitor) (tid : String)
    (st : TaskStatus) (steps : Option Nat) (err : Option String) (now : Nat) :
    (update_task_status m tid st steps err now).stall_timeout =
        m.stall_timeout ∧
      (update_task_status m tid st steps err now).max_stall_checks =
        m.max_stall_checks := by
  unfold update_task_status
  split <;> exact ⟨rfl, rfl⟩

theorem config_update_task_progress (m : TaskMonitor) (tid : String)
    (steps now : Nat) :
    (update_task_progress m tid steps now).stall_timeout = m.stall_timeout ∧
      (update_task_progress m tid steps now).max_stall_checks =
        m.max_stall_checks := by
  unfold update_task_progress
  split <;> exact ⟨rfl, rfl⟩

theorem config_check_stalled (m : TaskMonitor) (now : Nat) :
    (check_stalled_tasks m now).stall_timeout = m.stall_timeout ∧
      (check_stalled_tasks m now).max_stall_checks = m.max_stall_checks :=
  ⟨rfl, rfl⟩

/-! Section: Record-level lemmas -/

theorem applyStatusUpdate_status (met : TaskMetrics) (st : TaskStatus)
    (steps : Option Nat) (err : Option String) (now : Nat) :
    (applyStatusUpdate met st steps err now).status = st := by
  unfold applyStatusUpdate
  cases steps <;> cases herr : errTruthy err <;>
    simp only [herr, if_true, if_false, Bool.false_eq_true] <;>
    (repeat' split) <;> rfl

theorem applyStatusUpdate_last_activity (met : TaskMetrics) (st : TaskStatus)
    (steps : Option Nat) (err : Option String) (now : Nat) :
    (applyStatusUpdate met st steps err now).last_activity = some now := by
  unfold applyStatusUpdate
  cases steps <;> cases herr : errTruthy err <;>
    simp only [herr, if_true, if_false, Bool.false_eq_true] <;>
    (repeat' split) <;> rfl

theorem applyStatusUpdate_terminal_completed_at (met : TaskMetrics)
    (st : TaskStatus) (steps : Option Nat) (err : Option String) (now : Nat)
    (hst : st = TaskStatus.completed ∨ st = TaskStatus.error ∨
      st = TaskStatus.cancelled) :
    (applyStatusUpdate met st steps err now).completed_at = some now := by
  have hnr : ¬ (st = TaskStatus.running ∧ met.status = TaskStatus.queued) := by
    rcases hst with h | h | h <;> simp [h]
  unfold applyStatusUpdate
  cases steps <;> cases herr : errTruthy err <;>
    simp only [herr, if_true, if_false, Bool.false_eq_true, if_neg hnr,
      if_pos hst] <;> (repeat' split) <;> rfl

theorem applyProgress_accept (met : TaskMetrics) (steps now : Nat)
    (h : steps > met.steps_completed) :
    applyProgress met steps now =
      { met with
          steps_completed := steps
          last_activity := some now
          stall_count := 0 } := by
  unfold applyProgress
  exact if_pos h

theorem applyProgress_reject (met : TaskMetrics) (steps now : Nat)
    (h : ¬ steps > met.steps_completed) :
    applyProgress met steps now = met := by
  unfold applyProgress
  exact if_neg h

theorem applyProgress_status (met : TaskMetrics) (steps now : Nat) :
    (applyProgress met steps now).status = met.status := by
  unfold applyProgress
  split <;> rfl

theorem applyProgress_steps_mono (met : TaskMetrics) (steps now : Nat) :
    met.steps_completed ≤ (applyProgress met steps now).steps_completed := by
  unfold applyProgress
  split
  · next h => exact Nat.le_of_lt h
  · exact Nat.le_refl _

theorem stallStep_nonrunning (t k now : Nat) (met : TaskMetrics)
    (h : met.status ≠ TaskStatus.running) :
    stallStep t k now met = met := by
  unfold stallStep
  exact if_pos h

theorem stallStep_no_activity (t k now : Nat) (met : TaskMetrics)
    (h : met.last_activity = none) :
    stallStep t k now met = met := by
  unfold stallStep
  split
  · rfl
  · rw [h]

theorem stallStep_within_window (t k now : Nat) (met : TaskMetrics) (la : Nat)
    (hla : met.last_activity = some la) (hwin : ¬ now - la > t) :
    stallStep t k now met = met := by
  unfold stallStep
  split
  · rfl
  · rw [hla]
    simp only [if_neg hwin]

theorem stallStep_increment (t k now : Nat) (met : TaskMetrics) (la : Nat)
    (hr : met.status = TaskStatus.running) (hla : met.last_activity = some la)
    (hin : now - la > t) (hk : met.stall_count + 1 < k) :
    stallStep t k now met = { met with stall_count := met.stall_count + 1 } := by
  unfold stallStep
  rw [if_neg (by simp [hr]), hla]
  simp only [if_pos hin]
  rw [if_neg (by simp; omega)]

theorem stallMessage_ne_empty (n : Nat) : stallMessage n ≠ "" := by
  intro h
  have hlen := congrArg String.length h
  rw [stallMessage] at hlen
  simp [String.length_append] at hlen
  exact absurd hlen.1.1 (by decide)

theorem applyStatusUpdate_stalled (met : TaskMetrics) (msg : String)
    (hmsg : msg ≠ "") (now : Nat) :
    applyStatusUpdate met TaskStatus.stalled none (some msg) now =
      { met with
          status := TaskStatus.stalled
          last_activity := some now
          error_message := some msg } := by
  have herr : errTruthy (some msg) = true := by simp [errTruthy, hmsg]
  unfold applyStatusUpdate
  simp only [herr, if_true]
  rw [if_neg (by simp), if_neg (by simp)]

theorem stallStep_escalate (t k now : Nat) (met : TaskMetrics) (la : Nat)
    (hr : met.status = TaskStatus.running) (hla : met.last_activity = some la)
    (hin : now - la > t) (hk : met.stall_count + 1 ≥ k) :
    stallStep t k now met =
      { met with
          status := TaskStatus.stalled
          stall_count := met.stall_count + 1
          last_activity := some now
          error_message := some (stallMessage (now - la)) } := by
  unfold stallStep
  rw [if_neg (by simp [hr]), hla]
  simp only [if_pos hin]
  rw [if_pos (by simpa using hk)]
  rw [applyStatusUpdate_stalled _ _ (stallMessage_ne_empty _)]

/-! Section: Trace lemmas for the liveness monitor -/

theorem config_run_ticks (times : List Nat) : ∀ m : TaskMonitor,
    (run_ticks m times).stall_timeout = m.stall_timeout ∧
      (run_ticks m times).max_stall_checks = m.max_stall_checks := by
  induction times with
  | nil => intro m; exact ⟨rfl, rfl⟩
  | cons n rest ih => intro m; exact ih (check_stalled_tasks m n)

theorem run_ticks_inactive (times : List Nat) : ∀ (m : TaskMonitor)
    (tid : String) (met : TaskMetrics) (la : Nat),
    lookupA m.task_metrics tid = some met →
    met.status = TaskStatus.running →
    met.last_activity = some la →
    (∀ n ∈ times, n - la > m.stall_timeout) →
    met.stall_count + times.length < m.max_stall_checks →
    lookupA (run_ticks m times).task_metrics tid =
      some { met with stall_count := met.stall_count + times.length } := by
  induction times with
  | nil =>
    intro m tid met la hl _ _ _ _
    simpa using hl
  | cons n rest ih =>
    intro m tid met la hl hr hla hins hlt
    have hki : met.stall_count + 1 + rest.length < m.max_stall_checks := by
      simp only [List.length_cons] at hlt
      omega
    have htick : lookupA (check_stalled_tasks m n).task_metrics tid =
        some { met with stall_count := met.stall_count + 1 } := by
      rw [lookup_check_stalled, hl, Option.map_some']
      rw [stallStep_increment m.stall_timeout m.max_stall_checks n met la hr
        hla (hins n (by simp)) (by omega)]
    have hres : lookupA
        (run_ticks (check_stalled_tasks m n) rest).task_metrics tid =
        some { met with stall_count := met.stall_count + 1 + rest.length } :=
      ih (check_stalled_tasks m n) tid
        { met with stall_count := met.stall_count + 1 } la htick hr hla
        (fun n' hn' => by
          rw [(config_check_stalled m n).1]
          exact hins n' (by simp [hn']))
        (by
          rw [(config_check_stalled m n).2]
          exact hki)
    have harith : met.stall_count + 1 + rest.length =
        met.stall_count + (rest.length + 1) := by omega
    rw [harith] at hres
    exact hres

theorem run_ticks_escalates (m : TaskMonitor) (tid : String)
    (met : TaskMetrics) (la : Nat) (times : List Nat)
    (hl : lookupA m.task_metrics tid = some met)
    (hr : met.status = TaskStatus.running)
    (hla : met.last_activity = some la)
    (hc0 : met.stall_count = 0)
    (hins : ∀ n ∈ times, n - la > m.stall_timeout)
    (hk : 1 ≤ m.max_stall_checks)
    (hlen : times.length = m.max_stall_checks) :
    ∃ met', lookupA (run_ticks m times).task_metrics tid = some met' ∧
      met'.status = TaskStatus.stalled ∧
      ∃ msg, met'.error_message = some msg ∧ msg ≠ "" := by
  have hne : times ≠ [] := by
    intro h
    rw [h] at hlen
    simp at hlen
    omega
  obtain ⟨ts, n, heq⟩ : ∃ ts n, times = ts ++ [n] := by
    refine ⟨times.dropLast, times.getLast hne, ?_⟩
    exact (List.dropLast_append_getLast hne).symm
  subst heq
  have hlents : ts.length + 1 = m.max_stall_checks := by
    simpa using hlen
  have hmid : lookupA (run_ticks m ts).task_metrics tid =
      some { met with stall_count := met.stall_count + ts.length } :=
    run_ticks_inactive ts m tid met la hl hr hla
      (fun n' hn' => hins n' (by simp [hn']))
      (by omega)
  have hruncfg := config_run_ticks ts m
  have heq2 : run_ticks m (ts ++ [n]) =
      check_stalled_tasks (run_ticks m ts) n := by
    rw [run_ticks, List.foldl_append]
    rfl
  have hfin : lookupA (run_ticks m (ts ++ [n])).task_metrics tid =
      some { met with
          status := TaskStatus.stalled
          stall_count := met.stall_count + ts.length + 1
          last_activity := some n
          error_message := some (stallMessage (n - la)) } := by
    rw [heq2, lookup_check_stalled, hmid, Option.map_some', hruncfg.1,
      hruncfg.2]
    rw [stallStep_escalate m.stall_timeout m.max_stall_checks n
      { met with stall_count := met.stall_count + ts.length } la hr hla
      (hins n (by simp))
      (show met.stall_count + ts.length + 1 ≥ m.max_stall_checks by omega)]
  exact ⟨_, hfin, rfl, stallMessage (n - la), rfl, stallMessage_ne_empty _⟩

theorem config_progress_round (m : TaskMonitor) (tid : String)
    (r : Nat × Nat × Nat) :
    (progress_round tid m r).stall_timeout = m.stall_timeout ∧
      (progress_round tid m r).max_stall_checks = m.max_stall_checks := by
  unfold progress_round
  rw [(config_check_stalled _ _).1, (config_check_stalled _ _).2,
    (config_update_task_progress m tid r.1 r.2.1).1,
    (config_update_task_progress m tid r.1 r.2.1).2]
  exact ⟨rfl, rfl⟩

theorem run_rounds_active (rounds : List (Nat × Nat × Nat)) :
    ∀ (m : TaskMonitor) (tid : String) (met : TaskMetrics),
    lookupA m.task_metrics tid = some met →
    met.status = TaskStatus.running →
    met.stall_count = 0 →
    List.Chain (· < ·) met.steps_completed (rounds.map fun r => r.1) →
    (∀ r ∈ rounds, r.2.2 - r.2.1 ≤ m.stall_timeout) →
    ∃ met', lookupA (run_rounds m tid rounds).task_metrics tid = some met' ∧
      met'.status = TaskStatus.running ∧ met'.stall_count = 0 := by
  induction rounds with
  | nil =>
    intro m tid met hl hr hc _ _
    exact ⟨met, hl, hr, hc⟩
  | cons r rest ih =>
    intro m tid met hl hr hc hchain hwin
    rw [List.map_cons, List.chain_cons] at hchain
    have h1 : lookupA (update_task_progress m tid r.1 r.2.1).task_metrics tid =
        some { met with
            steps_completed := r.1
            last_activity := some r.2.1
            stall_count := 0 } := by
      rw [lookup_update_task_progress, if_pos rfl, hl, Option.map_some',
        applyProgress_accept met r.1 r.2.1 hchain.1]
    have h2 : lookupA (progress_round tid m r).task_metrics tid =
        some { met with
            steps_completed := r.1
            last_activity := some r.2.1
            stall_count := 0 } := by
      unfold progress_round
      rw [lookup_check_stalled, h1, Option.map_some',
        (config_update_task_progress m tid r.1 r.2.1).1,
        stallStep_within_window m.stall_timeout _ _ _ r.2.1 rfl
          (by
            have := hwin r (by simp)
            omega)]
    have hres := ih (progress_round tid m r) tid _ h2 hr rfl hchain.2
      (by
        intro r' hr'
        rw [(config_progress_round m tid r).1]
        exact hwin r' (by simp [hr']))
    exact hres

/-! Section: Further association-list lemmas -/

theorem lookupA_append {α : Type} (l1 l2 : List (String × α)) (k : String) :
    lookupA (l1 ++ l2) k =
      match lookupA l1 k with
      | some v => some v
      | none => lookupA l2 k := by
  induction l1 with
  | nil => rfl
  | cons e rest ih =>
    by_cases he : e.1 = k
    · simp [lookupA, he]
    · simp [lookupA, he, ih]

theorem lookupA_insertA_self {α : Type} (l : List (String × α)) (k : String)
    (v : α) : lookupA (insertA l k v) k = some v := by
  unfold insertA
  by_cases hc : containsA l k
  · rw [if_pos hc, lookupA_updateA, if_pos rfl]
    rw [containsA_eq_isSome] at hc
    obtain ⟨w, hw⟩ := Option.isSome_iff_exists.mp hc
    rw [hw]
    rfl
  · rw [if_neg hc, lookupA_append]
    rw [containsA_eq_isSome] at hc
    have hnone : lookupA l k = none := by
      cases h : lookupA l k with
      | none => rfl
      | some w => rw [h] at hc; simp at hc
    rw [hnone]
    simp [lookupA]

theorem lookupA_insertA_ne {α : Type} (l : List (String × α)) (k : String)
    (v : α) (k' : String) (h : k' ≠ k) :
    lookupA (insertA l k v) k' = lookupA l k' := by
  unfold insertA
  by_cases hc : containsA l k
  · rw [if_pos hc, lookupA_updateA, if_neg h]
  · rw [if_neg hc, lookupA_append]
    have h2 : ¬ k = k' := fun hh => h hh.symm
    cases hl : lookupA l k' with
    | none => simp [lookupA, h2]
    | some w => rfl

/-! Section: Concrete example states -/

/-- Example monitor: task `"t1"` for user `"alice"` registered at instant 0
on a default-configured monitor (`stall_timeout = 60`,
`max_stall_checks = 3`). -/
def exampleRegistered : TaskMonitor := register_task {} "t1" "alice" 30 0

/-- The record stored for `"t1"` right after registration. -/
def exampleQueuedMet : TaskMetrics :=
  { task_id := "t1"
    user_id := "alice"
    status := TaskStatus.queued
    steps_completed := 0
    steps_target := 30
    created_at := 0 }

/-- Example monitor: the registered task transitioned to running at
instant 1. -/
def exampleRunning : TaskMonitor :=
  update_task_status exampleRegistered "t1" TaskStatus.running none none 1

/-- The record stored for `"t1"` right after the `queued → running`
transition at instant 1. -/
def exampleRunningMet : TaskMetrics :=
  { task_id := "t1"
    user_id := "alice"
    status := TaskStatus.running
    steps_completed := 0
    steps_target := 30
    created_at := 0
    started_at := some 1
    last_activity := some 1 }

/-- Example server entry: the `active_tasks` record inserted by
`execute_task` for id `"task-1"`, user `"alice"`, at instant 0. -/
def exampleTaskInfo : TaskInfo :=
  { task_id := "task-1"
    user_id := "alice"
    session_id := "sess"
    task := "job"
    status := TaskStatus.queued
    steps_completed := 0
    created_at := 0
    max_steps := 30
    model := "gpt-4o-mini" }

/-! Section: Claim theorems -/

/-- Claim C6 — `report_progress` applies a monotonic max: a reported value is
stored only when strictly greater than the stored one, an accepted update
resets `stall_count` and refreshes `last_activity`, a rejected update
leaves the record untouched; and the 1, 3, 2 scenario ends with
`steps_completed = 3`. -/
theorem progress_monotonic_max (m : TaskMonitor) (tid : String)
    (met : TaskMetrics) (steps now : Nat)
    (hl : lookupA m.task_metrics tid = some met) :
    (steps > met.steps_completed →
      lookupA (update_task_progress m tid steps now).task_metrics tid =
        some { met with
            steps_completed := steps
            last_activity := some now
            stall_count := 0 }) ∧
    (¬ steps > met.steps_completed →
      lookupA (update_task_progress m tid steps now).task_metrics tid =
        some met) ∧
    (lookupA (update_task_progress (update_task_progress (update_task_progress
          exampleRunning "t1" 1 2) "t1" 3 3) "t1" 2 4).task_metrics "t1").map
        TaskMetrics.steps_completed = some 3 := by
  refine ⟨?_, ?_, ?_⟩
  · intro h
    rw [lookup_update_task_progress, if_pos rfl, hl, Option.map_some',
      applyProgress_accept met steps now h]
  · intro h
    rw [lookup_update_task_progress, if_pos rfl, hl, Option.map_some',
      applyProgress_reject met steps now h]
  · rfl

/-- Witness for claim C6 at a concrete input. -/
theorem progress_monotonic_max_witness :
    lookupA exampleRunning.task_metrics "t1" = some exampleRunningMet ∧
    (5 > exampleRunningMet.steps_completed) ∧
    lookupA (update_task_progress exampleRunning "t1" 5 2).task_metrics "t1" =
      some { exampleRunningMet with
          steps_completed := 5
          last_activity := some 2
          stall_count := 0 } :=
  ⟨rfl, by decide,
    (progress_monotonic_max exampleRunning "t1" exampleRunningMet 5 2 rfl).1
      (by decide)⟩

/-- Claim C8 — `cancel_task` returns 404 (`NotFoundError`) on an unknown id
and 400 (`InvalidStateError`) on a task outside `{queued, running}`,
producing no new registry state in either case; on a queued or running
task it synchronously returns the registry with that record marked
`cancelled` and `completed_at` set, all other records unchanged. -/
theorem cancel_task_spec (tasks : ActiveTasks) (tid : String) (now : Nat)
    (info : TaskInfo) :
    (lookupA tasks tid = none →
      cancel_task tasks tid now = Except.error ⟨404, "Task non trovato"⟩) ∧
    (lookupA tasks tid = some info →
      info.status ≠ TaskStatus.queued → info.status ≠ TaskStatus.running →
      cancel_task tasks tid now =
        Except.error ⟨400, "Task non può essere cancellato"⟩) ∧
    (lookupA tasks tid = some info →
      (info.status = TaskStatus.queued ∨ info.status = TaskStatus.running) →
      cancel_task tasks tid now =
        Except.ok (updateA tasks tid fun i =>
          { i with
              status := TaskStatus.cancelled
              completed_at := some now }) ∧
      lookupA (updateA tasks tid fun i =>
          { i with
              status := TaskStatus.cancelled
              completed_at := some now }) tid =
        some { info with
            status := TaskStatus.cancelled
            completed_at := some now } ∧
      ∀ tid', tid' ≠ tid →
        lookupA (updateA tasks tid fun i =>
            { i with
                status := TaskStatus.cancelled
                completed_at := some now }) tid' =
          lookupA tasks tid') := by
  refine ⟨?_, ?_, ?_⟩
  · intro h
    unfold cancel_task
    rw [h]
  · intro hl h1 h2
    unfold cancel_task
    rw [hl]
    simp only [if_pos (And.intro h1 h2)]
  · intro hl hqr
    have hneg : ¬ (info.status ≠ TaskStatus.queued ∧
        info.status ≠ TaskStatus.running) := by
      rcases hqr with h | h <;> simp [h]
    refine ⟨?_, ?_, ?_⟩
    · unfold cancel_task
      rw [hl]
      simp only [if_neg hneg]
    · rw [lookupA_updateA, if_pos rfl, hl, Option.map_some']
    · intro tid' hne
      rw [lookupA_updateA, if_neg hne]

/-- Witness for claim C8 at a concrete input. -/
theorem cancel_task_spec_witness :
    lookupA [("task-1", exampleTaskInfo)] "task-1" = some exampleTaskInfo ∧
    (exampleTaskInfo.status = TaskStatus.queued ∨
      exampleTaskInfo.status = TaskStatus.running) ∧
    cancel_task [("task-1", exampleTaskInfo)] "task-1" 7 =
      Except.ok (updateA [("task-1", exampleTaskInfo)] "task-1" fun i =>
        { i with
            status := TaskStatus.cancelled
            completed_at := some 7 }) :=
  ⟨rfl, Or.inl rfl,
    ((cancel_task_spec [("task-1", exampleTaskInfo)] "task-1" 7
        exampleTaskInfo).2.2 rfl (Or.inl rfl)).1⟩

theorem applyStatusUpdate_begin (met : TaskMetrics) (now : Nat)
    (hq : met.status = TaskStatus.queued) :
    applyStatusUpdate met TaskStatus.running none none now =
      { met with
          status := TaskStatus.running
          last_activity := some now
          started_at := some now } := by
  unfold applyStatusUpdate
  have herr : errTruthy none = false := rfl
  simp only [herr, Bool.false_eq_true, if_false]
  rw [if_pos (And.intro trivial hq)]

/-- Claim C10 — every status update on a known task stamps `last_activity`
with the update instant; hence a task taken `queued → running` at instant
`s` has `last_activity = some s`, the monitor's skip-when-unset branch does
not apply to it, and a tick at instant `n` with `n - s` beyond the stall
timeout increments its stall counter (inactivity timed from the transition
to running). -/
theorem status_update_stamps_last_activity (m : TaskMonitor) (tid : String)
    (met : TaskMetrics) (st : TaskStatus) (steps : Option Nat)
    (err : Option String) (s n : Nat)
    (hl : lookupA m.task_metrics tid = some met) :
    ((lookupA (update_task_status m tid st steps err s).task_metrics tid).map
      TaskMetrics.last_activity = some (some s)) ∧
    (met.status = TaskStatus.queued →
      lookupA (update_task_status m tid TaskStatus.running none none
          s).task_metrics tid =
        some { met with
            status := TaskStatus.running
            last_activity := some s
            started_at := some s }) ∧
    (met.status = TaskStatus.queued →
      n - s > m.stall_timeout →
      met.stall_count + 1 < m.max_stall_checks →
      lookupA (check_stalled_tasks
          (update_task_status m tid TaskStatus.running none none s)
          n).task_metrics tid =
        some { met with
            status := TaskStatus.running
            last_activity := some s
            started_at := some s
            stall_count := met.stall_count + 1 }) := by
  refine ⟨?_, ?_, ?_⟩
  · rw [lookup_update_task_status, if_pos rfl, hl, Option.map_some',
      Option.map_some', applyStatusUpdate_last_activity]
  · intro hq
    rw [lookup_update_task_status, if_pos rfl, hl, Option.map_some',
      applyStatusUpdate_begin met s hq]
  · intro hq hin hcount
    have hbegin : lookupA (update_task_status m tid TaskStatus.running none
        none s).task_metrics tid =
        some { met with
            status := TaskStatus.running
            last_activity := some s
            started_at := some s } := by
      rw [lookup_update_task_status, if_pos rfl, hl, Option.map_some',
        applyStatusUpdate_begin met s hq]
    rw [lookup_check_stalled, hbegin, Option.map_some',
      (config_update_task_status m tid TaskStatus.running none none s).1,
      (config_update_task_status m tid TaskStatus.running none none s).2]
    rw [stallStep_increment m.stall_timeout m.max_stall_checks n
      { met with
          status := TaskStatus.running
          last_activity := some s
          started_at := some s } s rfl rfl hin hcount]

/-- Witness for claim C10 at a concrete input. -/
theorem status_update_stamps_last_activity_witness :
    lookupA exampleRegistered.task_metrics "t1" = some exampleQueuedMet ∧
    exampleQueuedMet.status = TaskStatus.queued ∧
    (70 - 1 > exampleRegistered.stall_timeout) ∧
    (exampleQueuedMet.stall_count + 1 < exampleRegistered.max_stall_checks) ∧
    lookupA (check_stalled_tasks
        (update_task_status exampleRegistered "t1" TaskStatus.running none
          none 1) 70).task_metrics "t1" =
      some { exampleQueuedMet with
          status := TaskStatus.running
          last_activity := some 1
          started_at := some 1
          stall_count := exampleQueuedMet.stall_count + 1 } :=
  ⟨rfl, rfl, by decide, by decide,
    (status_update_stamps_last_activity exampleRegistered "t1"
        exampleQueuedMet TaskStatus.running none none 1 70 rfl).2.2 rfl
      (by decide) (by decide)⟩

/-- Claim C3 — stall escalation: with `stall_timeout = t` and
`max_stall_checks = k`, a running task with `last_activity` set and no
progress is bumped once per inactive tick and transitions to `stalled`
with a non-empty error message exactly at the `k`-th consecutive inactive
tick, not earlier; any accepted progress report resets `stall_count` to
zero and refreshes `last_activity`, and a task whose (strictly
increasing) progress is accepted within every window stays running with
`stall_count = 0` and never stalls. -/
theorem stall_escalation (m : TaskMonitor) (tid : String) (met : TaskMetrics)
    (la : Nat)
    (hl : lookupA m.task_metrics tid = some met)
    (hr : met.status = TaskStatus.running)
    (hla : met.last_activity = some la)
    (hc0 : met.stall_count = 0)
    (hk : 1 ≤ m.max_stall_checks) :
    (∀ times : List Nat, (∀ n ∈ times, n - la > m.stall_timeout) →
      times.length < m.max_stall_checks →
      lookupA (run_ticks m times).task_metrics tid =
        some { met with stall_count := times.length }) ∧
    (∀ times : List Nat, (∀ n ∈ times, n - la > m.stall_timeout) →
      times.length = m.max_stall_checks →
      ∃ met', lookupA (run_ticks m times).task_metrics tid = some met' ∧
        met'.status = TaskStatus.stalled ∧
        ∃ msg, met'.error_message = some msg ∧ msg ≠ "") ∧
    (∀ steps now, steps > met.steps_completed →
      lookupA (update_task_progress m tid steps now).task_metrics tid =
        some { met with
            steps_completed := steps
            last_activity := some now
            stall_count := 0 }) ∧
    (∀ rounds : List (Nat × Nat × Nat),
      List.Chain (· < ·) met.steps_completed (rounds.map fun r => r.1) →
      (∀ r ∈ rounds, r.2.2 - r.2.1 ≤ m.stall_timeout) →
      ∃ met', lookupA (run_rounds m tid rounds).task_metrics tid = some met' ∧
        met'.status = TaskStatus.running ∧ met'.stall_count = 0) := by
  refine ⟨?_, ?_, ?_, ?_⟩
  · intro times hins hlt
    have hres := run_ticks_inactive times m tid met la hl hr hla hins
      (by omega)
    rw [hc0] at hres
    simpa using hres
  · intro times hins hlen
    exact run_ticks_escalates m tid met la times hl hr hla hc0 hins hk hlen
  · intro steps now h
    rw [lookup_update_task_progress, if_pos rfl, hl, Option.map_some',
      applyProgress_accept met steps now h]
  · intro rounds hchain hwin
    exact run_rounds_active rounds m tid met hl hr hc0 hchain hwin

/-- Witness for claim C3 at a concrete input (default configuration:
`stall_timeout = 60`, `max_stall_checks = 3`; ticks at 70, 140, 210 with
`last_activity = 1`). -/
theorem stall_escalation_witness :
    lookupA (run_ticks exampleRunning [70, 140]).task_metrics "t1" =
      some { exampleRunningMet with stall_count := 2 } ∧
    (∃ met', lookupA (run_ticks exampleRunning
          [70, 140, 210]).task_metrics "t1" = some met' ∧
      met'.status = TaskStatus.stalled ∧
      ∃ msg, met'.error_message = some msg ∧ msg ≠ "") :=
  ⟨(stall_escalation exampleRunning "t1" exampleRunningMet 1 rfl rfl rfl rfl
      (by decide)).1 [70, 140] (by decide) (by decide),
    (stall_escalation exampleRunning "t1" exampleRunningMet 1 rfl rfl rfl rfl
      (by decide)).2.1 [70, 140, 210] (by decide) (by decide)⟩

/-- The `active_tasks` record inserted by a second submit (`"task-2"`,
user `"alice"`, instant 1). -/
def exampleTaskInfo2 : TaskInfo :=
  { task_id := "task-2"
    user_id := "alice"
    session_id := "sess"
    task := "job"
    status := TaskStatus.queued
    steps_completed := 0
    created_at := 1
    max_steps := 30
    model := "gpt-4o-mini" }

/-- Claim C1, counterexample — a second submit for `"alice"` while her first
task is still `queued` does *not* raise `ConflictError`: `execute_task`
only checks for a record with status `"running"`, so the second call
succeeds and inserts a second active record. -/
theorem second_submit_while_queued_succeeds :
    execute_task [] "task-1" "alice" "sess" "job" 30 "gpt-4o-mini" 0 =
      Except.ok [("task-1", exampleTaskInfo)] ∧
    exampleTaskInfo.status = TaskStatus.queued ∧
    execute_task [("task-1", exampleTaskInfo)] "task-2" "alice" "sess" "job"
        30 "gpt-4o-mini" 1 =
      Except.ok [("task-1", exampleTaskInfo), ("task-2", exampleTaskInfo2)] :=
  ⟨rfl, rfl, rfl⟩

/-- Claim C1, amended — submission is rejected with HTTP 409
(`ConflictError`) precisely when the user already has a record with status
`running`; a `queued` record does not block, and an admitted submission
inserts the fresh `queued` record, leaving every other id unchanged. -/
theorem execute_task_blocks_only_running (tasks : ActiveTasks)
    (tid uid sid tk : String) (ms : Nat) (mdl : String) (now : Nat) :
    ((∃ e ∈ tasks, e.2.user_id = uid ∧ e.2.status = TaskStatus.running) →
      execute_task tasks tid uid sid tk ms mdl now =
        Except.error ⟨409, "Utente " ++ uid ++
          " ha già un task attivo. Completare o cancellare prima."⟩) ∧
    ((∀ e ∈ tasks, e.2.user_id = uid → e.2.status ≠ TaskStatus.running) →
      execute_task tasks tid uid sid tk ms mdl now =
        Except.ok (insertA tasks tid
          { task_id := tid
            user_id := uid
            session_id := sid
            task := tk
            status := TaskStatus.queued
            steps_completed := 0
            created_at := now
            max_steps := ms
            model := mdl }) ∧
      lookupA (insertA tasks tid
          { task_id := tid
            user_id := uid
            session_id := sid
            task := tk
            status := TaskStatus.queued
            steps_completed := 0
            created_at := now
            max_steps := ms
            model := mdl }) tid =
        some { task_id := tid
               user_id := uid
               session_id := sid
               task := tk
               status := TaskStatus.queued
               steps_completed := 0
               created_at := now
               max_steps := ms
               model := mdl } ∧
      ∀ tid', tid' ≠ tid →
        lookupA (insertA tasks tid
            { task_id := tid
              user_id := uid
              session_id := sid
              task := tk
              status := TaskStatus.queued
              steps_completed := 0
              created_at := now
              max_steps := ms
              model := mdl }) tid' = lookupA tasks tid') := by
  constructor
  · rintro ⟨e, he, h1, h2⟩
    have hmem : e ∈ tasks.filter
        (fun e => e.2.user_id == uid && e.2.status == TaskStatus.running) :=
      List.mem_filter.mpr ⟨he, by simp [h1, h2]⟩
    simp only [execute_task]
    rw [if_pos (List.ne_nil_of_mem hmem)]
  · intro hforall
    have hnil : tasks.filter
        (fun e => e.2.user_id == uid && e.2.status == TaskStatus.running) =
          [] := by
      apply List.filter_eq_nil_iff.mpr
      intro e he
      simp only [Bool.and_eq_true, beq_iff_eq, not_and]
      intro h1
      exact hforall e he h1
    refine ⟨?_, lookupA_insertA_self _ _ _,
      fun tid' hne => lookupA_insertA_ne _ _ _ _ hne⟩
    simp only [execute_task]
    rw [hnil]
    simp

/-- Witness for the amended claim C1 at a concrete input. -/
theorem execute_task_blocks_only_running_witness :
    (∀ e ∈ ([] : ActiveTasks), e.2.user_id = "alice" →
      e.2.status ≠ TaskStatus.running) ∧
    execute_task [] "task-1" "alice" "sess" "job" 30 "gpt-4o-mini" 0 =
      Except.ok (insertA [] "task-1"
        { task_id := "task-1"
          user_id := "alice"
          session_id := "sess"
          task := "job"
          status := TaskStatus.queued
          steps_completed := 0
          created_at := 0
          max_steps := 30
          model := "gpt-4o-mini" }) :=
  ⟨by simp,
    ((execute_task_blocks_only_running [] "task-1" "alice" "sess" "job" 30
        "gpt-4o-mini" 0).2 (by simp)).1⟩

/-- Example monitor: the running task finished (`completed`) at instant 5. -/
def exampleCompleted : TaskMonitor :=
  update_task_status exampleRunning "t1" TaskStatus.completed none none 5

/-- The record stored for `"t1"` right after completion at instant 5. -/
def exampleCompletedMet : TaskMetrics :=
  { task_id := "t1"
    user_id := "alice"
    status := TaskStatus.completed
    steps_completed := 0
    steps_target := 30
    created_at := 0
    started_at := some 1
    completed_at := some 5
    last_activity := some 5
    duration_seconds := 4 }

/-- Claim C2, counterexample — `update_task_status` has no terminal guard: a
status update on a `completed` task moves it back to `running`, so a
terminal status is not immutable under every operation. -/
theorem terminal_status_overwritten_by_update :
    (lookupA exampleCompleted.task_metrics "t1").map TaskMetrics.status =
      some TaskStatus.completed ∧
    (lookupA (update_task_status exampleCompleted "t1" TaskStatus.running
        none none 6).task_metrics "t1").map TaskMetrics.status =
      some TaskStatus.running :=
  ⟨rfl, rfl⟩

/-- Claim C2, amended — progress reports never change any record's status,
a monitor tick leaves every non-running (in particular every terminal)
record entirely unchanged, a cleanup pass only removes records (every
surviving entry existed unchanged before), and server-side cancellation
rejects terminal records with HTTP 400; but `update_task_status`
overwrites the status of any known task unconditionally, so a direct
status update can leave a terminal state. -/
theorem terminal_immutable_except_status_update (m : TaskMonitor)
    (tid : String) (met : TaskMetrics) (tasks : ActiveTasks)
    (info : TaskInfo) (steps now : Nat) (st : TaskStatus)
    (stepsOpt : Option Nat) (err : Option String)
    (hl : lookupA m.task_metrics tid = some met)
    (hterm : met.status = TaskStatus.completed ∨
      met.status = TaskStatus.error ∨ met.status = TaskStatus.cancelled ∨
      met.status = TaskStatus.stalled) :
    ((lookupA (update_task_progress m tid steps now).task_metrics tid).map
      TaskMetrics.status = some met.status) ∧
    (lookupA (check_stalled_tasks m now).task_metrics tid = some met) ∧
    (∀ e ∈ (cleanup_old_tasks m now).task_metrics, e ∈ m.task_metrics) ∧
    (lookupA tasks tid = some info →
      (info.status = TaskStatus.completed ∨ info.status = TaskStatus.error ∨
        info.status = TaskStatus.cancelled ∨
        info.status = TaskStatus.stalled) →
      cancel_task tasks tid now =
        Except.error ⟨400, "Task non può essere cancellato"⟩) ∧
    ((lookupA (update_task_status m tid st stepsOpt err
        now).task_metrics tid).map TaskMetrics.status = some st) := by
  have hnr : met.status ≠ TaskStatus.running := by
    rcases hterm with h | h | h | h <;> simp [h]
  refine ⟨?_, ?_, ?_, ?_, ?_⟩
  · rw [lookup_update_task_progress, if_pos rfl, hl, Option.map_some',
      Option.map_some', applyProgress_status]
  · rw [lookup_check_stalled, hl, Option.map_some',
      stallStep_nonrunning _ _ _ _ hnr]
  · intro e he
    exact List.mem_of_mem_filter he
  · intro hli hinfo
    have h1 : info.status ≠ TaskStatus.queued := by
      rcases hinfo with h | h | h | h <;> simp [h]
    have h2 : info.status ≠ TaskStatus.running := by
      rcases hinfo with h | h | h | h <;> simp [h]
    unfold cancel_task
    rw [hli]
    simp only [if_pos (And.intro h1 h2)]
  · rw [lookup_update_task_status, if_pos rfl, hl, Option.map_some',
      Option.map_some', applyStatusUpdate_status]

/-- Witness for the amended claim C2 at a concrete input. -/
theorem terminal_immutable_except_status_update_witness :
    lookupA exampleCompleted.task_metrics "t1" = some exampleCompletedMet ∧
    exampleCompletedMet.status = TaskStatus.completed ∧
    lookupA (check_stalled_tasks exampleCompleted 99).task_metrics "t1" =
      some exampleCompletedMet :=
  ⟨rfl, rfl,
    (terminal_immutable_except_status_update exampleCompleted "t1"
        exampleCompletedMet [] exampleTaskInfo 0 99 TaskStatus.running none
        none rfl (Or.inl rfl)).2.1⟩

theorem stallStep_completed_at (t k now : Nat) (met : TaskMetrics) :
    (stallStep t k now met).completed_at = met.completed_at := by
  by_cases hr : met.status ≠ TaskStatus.running
  · rw [stallStep_nonrunning _ _ _ _ hr]
  · push_neg at hr
    cases hla : met.last_activity with
    | none => rw [stallStep_no_activity _ _ _ _ hla]
    | some la =>
      by_cases hin : now - la > t
      · by_cases hk2 : met.stall_count + 1 ≥ k
        · rw [stallStep_escalate t k now met la hr hla hin hk2]
        · rw [stallStep_increment t k now met la hr hla hin (by omega)]
      · rw [stallStep_within_window t k now met la hla hin]

/-- Example monitor: the running task escalated to `stalled` by three
inactive monitor ticks (instants 70, 140, 210; default configuration). -/
def exampleStalled : TaskMonitor := run_ticks exampleRunning [70, 140, 210]

/-- Claim C4, counterexample — the monitor's transition to `stalled` does
*not* set `completed_at` (`STALLED` is missing from the terminal-timestamp
branch of `update_task_status`): after escalation the record is terminal
(`stalled`) with `completed_at` still unset, refuting the if-and-only-if. -/
theorem stalled_record_has_no_completed_at :
    (lookupA exampleStalled.task_metrics "t1").map TaskMetrics.status =
      some TaskStatus.stalled ∧
    (lookupA exampleStalled.task_metrics "t1").map TaskMetrics.completed_at =
      some none :=
  ⟨rfl, rfl⟩

/-- Claim C4, amended — a status update to `completed`, `error` or
`cancelled` on a known task sets `completed_at` to the update instant, but
a monitor tick — including the escalation to `stalled` — leaves every
record's `completed_at` unchanged; so a stalled record's `completed_at`
stays unset unless it was set by an earlier transition. -/
theorem completed_at_set_by_finish_not_by_stall (m : TaskMonitor)
    (tid : String) (met : TaskMetrics) (st : TaskStatus)
    (steps : Option Nat) (err : Option String) (now : Nat)
    (hl : lookupA m.task_metrics tid = some met)
    (hst : st = TaskStatus.completed ∨ st = TaskStatus.error ∨
      st = TaskStatus.cancelled) :
    ((lookupA (update_task_status m tid st steps err
        now).task_metrics tid).map TaskMetrics.completed_at =
      some (some now)) ∧
    (∀ tid', (lookupA (check_stalled_tasks m now).task_metrics tid').map
        TaskMetrics.completed_at =
      (lookupA m.task_metrics tid').map TaskMetrics.completed_at) := by
  constructor
  · rw [lookup_update_task_status, if_pos rfl, hl, Option.map_some',
      Option.map_some', applyStatusUpdate_terminal_completed_at met st steps
        err now hst]
  · intro tid'
    rw [lookup_check_stalled]
    cases lookupA m.task_metrics tid' with
    | none => rfl
    | some v =>
      rw [Option.map_some', Option.map_some', Option.map_some',
        stallStep_completed_at]

/-- Witness for the amended claim C4 at a concrete input. -/
theorem completed_at_set_by_finish_not_by_stall_witness :
    lookupA exampleRunning.task_metrics "t1" = some exampleRunningMet ∧
    (TaskStatus.completed = TaskStatus.completed ∨
      TaskStatus.completed = TaskStatus.error ∨
      TaskStatus.completed = TaskStatus.cancelled) ∧
    (lookupA (update_task_status exampleRunning "t1" TaskStatus.completed
        none none 5).task_metrics "t1").map TaskMetrics.completed_at =
      some (some 5) :=
  ⟨rfl, Or.inl rfl,
    (completed_at_set_by_finish_not_by_stall exampleRunning "t1"
        exampleRunningMet TaskStatus.completed none none 5 rfl
        (Or.inl rfl)).1⟩

theorem cleanupRemoves_iff (now : Nat) (met : TaskMetrics) :
    cleanupRemoves now met = true ↔
      ((met.status = TaskStatus.completed ∨ met.status = TaskStatus.error ∨
        met.status = TaskStatus.cancelled) ∧
       ∃ c, met.completed_at = some c ∧ now - c > cleanup_age) := by
  unfold cleanupRemoves
  cases h : met.completed_at with
  | none => simp [h]
  | some c => simp [h, or_assoc]

theorem lookup_cleanup (m : TaskMonitor) (now : Nat) (tid : String)
    (hnd : (keysA m.task_metrics).Nodup) :
    lookupA (cleanup_old_tasks m now).task_metrics tid =
      match lookupA m.task_metrics tid with
      | some v => if cleanupRemoves now v then none else some v
      | none => none := by
  unfold cleanup_old_tasks
  rw [lookupA_filter m.task_metrics (fun v => ! cleanupRemoves now v) tid hnd]
  cases lookupA m.task_metrics tid with
  | none => rfl
  | some v =>
    cases h : cleanupRemoves now v <;> simp [h]

/-- Example monitor: the completed record is overwritten back to `running`
(at instant 0) and then escalated to `stalled`, yielding a reachable
`stalled` record carrying `completed_at = some 0`. -/
def exampleStalledOldCompleted : TaskMonitor :=
  run_ticks
    (update_task_status
      (update_task_status exampleRegistered "t1" TaskStatus.completed none
        none 0)
      "t1" TaskStatus.running none none 0)
    [70, 140, 210]

/-- Claim C5, counterexample — a `stalled` record whose `completed_at` is far
older than the one-hour window survives a cleanup pass unchanged: the
cleanup scan only collects `completed`, `error` and `cancelled` records,
never `stalled` ones. -/
theorem cleanup_keeps_old_stalled_record :
    (lookupA exampleStalledOldCompleted.task_metrics "t1").map
        TaskMetrics.status = some TaskStatus.stalled ∧
    (lookupA exampleStalledOldCompleted.task_metrics "t1").map
        TaskMetrics.completed_at = some (some 0) ∧
    7300 - 0 > cleanup_age ∧
    lookupA (cleanup_old_tasks exampleStalledOldCompleted
        7300).task_metrics "t1" =
      lookupA exampleStalledOldCompleted.task_metrics "t1" :=
  ⟨rfl, rfl, by decide, rfl⟩

/-- Claim C5, amended — after a cleanup pass at instant `now` (registry keys
distinct), a record is removed exactly when its status is `completed`,
`error` or `cancelled` and its `completed_at` is set and older than the
one-hour window; every other record — non-terminal, `stalled`, without
`completed_at`, or younger than the window — is still present and
unchanged. -/
theorem cleanup_retention (m : TaskMonitor) (now : Nat) (tid : String)
    (met : TaskMetrics) (c : Nat)
    (hnd : (keysA m.task_metrics).Nodup)
    (hl : lookupA m.task_metrics tid = some met) :
    ((met.status = TaskStatus.completed ∨ met.status = TaskStatus.error ∨
        met.status = TaskStatus.cancelled) →
      met.completed_at = some c → now - c > cleanup_age →
      lookupA (cleanup_old_tasks m now).task_metrics tid = none) ∧
    ((¬ (met.status = TaskStatus.completed ∨ met.status = TaskStatus.error ∨
        met.status = TaskStatus.cancelled)) →
      lookupA (cleanup_old_tasks m now).task_metrics tid = some met) ∧
    (met.completed_at = none →
      lookupA (cleanup_old_tasks m now).task_metrics tid = some met) ∧
    (met.completed_at = some c → ¬ now - c > cleanup_age →
      lookupA (cleanup_old_tasks m now).task_metrics tid = some met) ∧
    (met.status = TaskStatus.stalled →
      lookupA (cleanup_old_tasks m now).task_metrics tid = some met) := by
  have hchar : lookupA (cleanup_old_tasks m now).task_metrics tid =
      if cleanupRemoves now met = true then none else some met := by
    rw [lookup_cleanup m now tid hnd, hl]
  refine ⟨?_, ?_, ?_, ?_, ?_⟩
  · intro hterm hca hage
    rw [hchar]
    rw [if_pos ((cleanupRemoves_iff now met).mpr ⟨hterm, c, hca, hage⟩)]
  · intro hnterm
    rw [hchar]
    rw [if_neg (fun hrem => hnterm ((cleanupRemoves_iff now met).mp hrem).1)]
  · intro hca
    rw [hchar]
    rw [if_neg (fun hrem => by
      obtain ⟨-, c', hc', -⟩ := (cleanupRemoves_iff now met).mp hrem
      rw [hca] at hc'
      exact Option.noConfusion hc')]
  · intro hca hyoung
    rw [hchar]
    rw [if_neg (fun hrem => by
      obtain ⟨-, c', hc', hage'⟩ := (cleanupRemoves_iff now met).mp hrem
      rw [hca] at hc'
      rw [← Option.some.inj hc'] at hage'
      exact hyoung hage')]
  · intro hstalled
    rw [hchar]
    rw [if_neg (fun hrem => by
      rcases ((cleanupRemoves_iff now met).mp hrem).1 with h | h | h <;>
        rw [hstalled] at h <;> exact TaskStatus.noConfusion h)]

/-- Witness for the amended claim C5 at a concrete input (a `completed`
record finished at instant 5, cleaned up at instant 4000). -/
theorem cleanup_retention_witness :
    (keysA exampleCompleted.task_metrics).Nodup ∧
    lookupA exampleCompleted.task_metrics "t1" = some exampleCompletedMet ∧
    (exampleCompletedMet.status = TaskStatus.completed ∨
      exampleCompletedMet.status = TaskStatus.error ∨
      exampleCompletedMet.status = TaskStatus.cancelled) ∧
    exampleCompletedMet.completed_at = some 5 ∧
    4000 - 5 > cleanup_age ∧
    lookupA (cleanup_old_tasks exampleCompleted 4000).task_metrics "t1" =
      none :=
  ⟨by decide, rfl, Or.inl rfl, rfl, by decide,
    (cleanup_retention exampleCompleted 4000 "t1" exampleCompletedMet 5
        (by decide) rfl).1 (Or.inl rfl) rfl (by decide)⟩

theorem containsA_updateA {α : Type} (l : List (String × α)) (k : String)
    (f : α → α) (k' : String) :
    containsA (updateA l k f) k' = containsA l k' := by
  rw [containsA_eq_isSome, containsA_eq_isSome, lookupA_updateA]
  by_cases hk : k' = k
  · subst hk
    rw [if_pos rfl]
    cases lookupA l k' <;> rfl
  · rw [if_neg hk]

theorem applyStatusUpdate_finish_idem (met : TaskMetrics)
    (outcome : TaskStatus) (err : Option String) (now : Nat)
    (h : outcome = TaskStatus.completed ∨ outcome = TaskStatus.error) :
    applyStatusUpdate (applyStatusUpdate met outcome none err now) outcome
        none err now =
      applyStatusUpdate met outcome none err now := by
  rcases h with h | h <;> subst h <;>
    unfold applyStatusUpdate <;>
    cases hsa : met.started_at <;> cases herr : errTruthy err <;>
      simp [hsa, herr]

theorem applyStatusUpdate_steps_none (met : TaskMetrics) (st : TaskStatus)
    (err : Option String) (now : Nat) :
    (applyStatusUpdate met st none err now).steps_completed =
      met.steps_completed := by
  unfold applyStatusUpdate
  cases herr : errTruthy err <;>
    simp only [herr, if_true, if_false, Bool.false_eq_true] <;>
    (repeat' split) <;> rfl

theorem applyStatusUpdate_steps_some (met : TaskMetrics) (st : TaskStatus)
    (s : Nat) (err : Option String) (now : Nat) :
    (applyStatusUpdate met st (some s) err now).steps_completed = s := by
  unfold applyStatusUpdate
  cases herr : errTruthy err <;>
    simp only [herr, if_true, if_false, Bool.false_eq_true] <;>
    (repeat' split) <;> rfl

/-- Example monitor: the running task finished at instant 10. -/
def exampleFinishedOnce : TaskMonitor :=
  update_task_status exampleRunning "t1" TaskStatus.completed none none 10

/-- Example monitor: the same finish applied a second time at instant 20. -/
def exampleFinishedTwice : TaskMonitor :=
  update_task_status exampleFinishedOnce "t1" TaskStatus.completed none
    none 20

/-- Claim C7, counterexample — a second finish call is *not* a no-op: it
re-stamps `completed_at` (and `last_activity` and the duration) with the
second call's instant, so the record after two calls differs from the
record after one. -/
theorem second_finish_changes_record :
    (lookupA exampleFinishedOnce.task_metrics "t1").map
        TaskMetrics.completed_at = some (some 10) ∧
    (lookupA exampleFinishedTwice.task_metrics "t1").map
        TaskMetrics.completed_at = some (some 20) ∧
    exampleFinishedTwice ≠ exampleFinishedOnce :=
  ⟨rfl, rfl, by decide⟩

/-- Claim C7, amended — finish is idempotent only up to the wall clock:
repeating the terminal transition with the *same* timestamp reproduces the
state exactly, and a second call at any instant leaves the status and
`steps_completed` unchanged, but re-stamps `completed_at` with the second
call's instant (hence the record is not identical when the timestamps
differ). -/
theorem finish_idempotent_same_timestamp (m : TaskMonitor) (tid : String)
    (met : TaskMetrics) (outcome : TaskStatus) (err : Option String)
    (now n2 : Nat)
    (houtcome : outcome = TaskStatus.completed ∨
      outcome = TaskStatus.error)
    (hl : lookupA m.task_metrics tid = some met) :
    (update_task_status (update_task_status m tid outcome none err now) tid
        outcome none err now =
      update_task_status m tid outcome none err now) ∧
    ((lookupA (update_task_status (update_task_status m tid outcome none err
        now) tid outcome none err n2).task_metrics tid).map
      TaskMetrics.status = some outcome) ∧
    ((lookupA (update_task_status m tid outcome none err
        now).task_metrics tid).map TaskMetrics.status = some outcome) ∧
    ((lookupA (update_task_status (update_task_status m tid outcome none err
        now) tid outcome none err n2).task_metrics tid).map
      TaskMetrics.completed_at = some (some n2)) ∧
    ((lookupA (update_task_status (update_task_status m tid outcome none err
        now) tid outcome none err n2).task_metrics tid).map
      TaskMetrics.steps_completed = some met.steps_completed) := by
  have hst : outcome = TaskStatus.completed ∨ outcome = TaskStatus.error ∨
      outcome = TaskStatus.cancelled := by
    rcases houtcome with h | h
    · exact Or.inl h
    · exact Or.inr (Or.inl h)
  have hfirst : lookupA (update_task_status m tid outcome none err
      now).task_metrics tid =
      some (applyStatusUpdate met outcome none err now) := by
    rw [lookup_update_task_status, if_pos rfl, hl, Option.map_some']
  have hsecond : lookupA (update_task_status (update_task_status m tid
      outcome none err now) tid outcome none err n2).task_metrics tid =
      some (applyStatusUpdate (applyStatusUpdate met outcome none err now)
        outcome none err n2) := by
    rw [lookup_update_task_status, if_pos rfl, hfirst, Option.map_some']
  refine ⟨?_, ?_, ?_, ?_, ?_⟩
  · by_cases hc : containsA m.task_metrics tid = true
    · have h1 : update_task_status m tid outcome none err now =
          { m with task_metrics := (updateA m.task_metrics tid
              fun metrics =>
                applyStatusUpdate metrics outcome none err now) } := by
        unfold update_task_status
        rw [if_pos hc]
      have hc2 : containsA (updateA m.task_metrics tid
          (fun metrics => applyStatusUpdate metrics outcome none err now))
            tid = true := by
        rw [containsA_updateA]
        exact hc
      rw [h1]
      simp only [update_task_status, hc2, if_true]
      congr 1
      rw [updateA_updateA]
      have hfun : (fun v => applyStatusUpdate (applyStatusUpdate v outcome
          none err now) outcome none err now) =
          (fun metrics => applyStatusUpdate metrics outcome none err now) :=
        funext fun v => applyStatusUpdate_finish_idem v outcome err now
          houtcome
      rw [hfun]
    · have h1 : update_task_status m tid outcome none err now = m := by
        unfold update_task_status
        rw [if_neg hc]
      rw [h1]
      exact h1
  · rw [hsecond, Option.map_some', applyStatusUpdate_status]
  · rw [hfirst, Option.map_some', applyStatusUpdate_status]
  · rw [hsecond, Option.map_some',
      applyStatusUpdate_terminal_completed_at _ _ _ _ _ hst]
  · rw [hsecond, Option.map_some', applyStatusUpdate_steps_none,
      applyStatusUpdate_steps_none]

/-- Witness for the amended claim C7 at a concrete input. -/
theorem finish_idempotent_same_timestamp_witness :
    (TaskStatus.completed = TaskStatus.completed ∨
      TaskStatus.completed = TaskStatus.error) ∧
    lookupA exampleRunning.task_metrics "t1" = some exampleRunningMet ∧
    update_task_status (update_task_status exampleRunning "t1"
        TaskStatus.completed none none 10) "t1" TaskStatus.completed none
        none 10 =
      update_task_status exampleRunning "t1" TaskStatus.completed none
        none 10 :=
  ⟨Or.inl rfl, rfl,
    (finish_idempotent_same_timestamp exampleRunning "t1" exampleRunningMet
        TaskStatus.completed none 10 20 (Or.inl rfl) rfl).1⟩

theorem stallStep_steps (t k now : Nat) (met : TaskMetrics) :
    (stallStep t k now met).steps_completed = met.steps_completed := by
  by_cases hr : met.status ≠ TaskStatus.running
  · rw [stallStep_nonrunning _ _ _ _ hr]
  · push_neg at hr
    cases hla : met.last_activity with
    | none => rw [stallStep_no_activity _ _ _ _ hla]
    | some la =>
      by_cases hin : now - la > t
      · by_cases hk2 : met.stall_count + 1 ≥ k
        · rw [stallStep_escalate t k now met la hr hla hin hk2]
        · rw [stallStep_increment t k now met la hr hla hin (by omega)]
      · rw [stallStep_within_window t k now met la hla hin]

/-- Example monitor: the running task progressed to 5 steps at instant 2. -/
def exampleProgressed : TaskMonitor :=
  update_task_progress exampleRunning "t1" 5 2

/-- Claim C9, counterexample — `steps_completed` is not globally
non-decreasing: a status update carrying `steps_completed = 2` overwrites
the stored value 5 unconditionally, decreasing it. -/
theorem steps_decreased_by_status_update :
    (lookupA exampleProgressed.task_metrics "t1").map
        TaskMetrics.steps_completed = some 5 ∧
    (lookupA (update_task_status exampleProgressed "t1" TaskStatus.running
        (some 2) none 3).task_metrics "t1").map TaskMetrics.steps_completed =
      some 2 :=
  ⟨rfl, rfl⟩

/-- Claim C9, amended — `steps_completed` never decreases under progress
reports (out-of-order or duplicate values are ignored) and is untouched by
monitor ticks; but a status update carrying a `steps_completed` argument
overwrites the stored value unconditionally, so it can decrease it. -/
theorem steps_monotone_under_progress_only (m : TaskMonitor) (tid : String)
    (met : TaskMetrics) (steps now s : Nat) (st : TaskStatus)
    (err : Option String)
    (hl : lookupA m.task_metrics tid = some met) :
    (∃ met', lookupA (update_task_progress m tid steps
        now).task_metrics tid = some met' ∧
      met.steps_completed ≤ met'.steps_completed) ∧
    ((lookupA (check_stalled_tasks m now).task_metrics tid).map
      TaskMetrics.steps_completed = some met.steps_completed) ∧
    ((lookupA (update_task_status m tid st (some s) err
        now).task_metrics tid).map TaskMetrics.steps_completed = some s) := by
  refine ⟨?_, ?_, ?_⟩
  · refine ⟨applyProgress met steps now, ?_, applyProgress_steps_mono met
      steps now⟩
    rw [lookup_update_task_progress, if_pos rfl, hl, Option.map_some']
  · rw [lookup_check_stalled, hl, Option.map_some', Option.map_some',
      stallStep_steps]
  · rw [lookup_update_task_status, if_pos rfl, hl, Option.map_some',
      Option.map_some', applyStatusUpdate_steps_some]

/-- Witness for the amended claim C9 at a concrete input. -/
theorem steps_monotone_under_progress_only_witness :
    lookupA exampleProgressed.task_metrics "t1" =
      some { exampleRunningMet with
          steps_completed := 5
          last_activity := some 2
          stall_count := 0 } ∧
    (∃ met', lookupA (update_task_progress exampleProgressed "t1" 3
        9).task_metrics "t1" = some met' ∧
      ({ exampleRunningMet with
          steps_completed := 5
          last_activity := some 2
          stall_count := 0 } : TaskMetrics).steps_completed ≤
        met'.steps_completed) :=
  ⟨rfl,
    (steps_monotone_under_progress_only exampleProgressed "t1"
        { exampleRunningMet with
            steps_completed := 5
            last_activity := some 2
            stall_count := 0 } 3 9 0 TaskStatus.running none rfl).1⟩

end BrowserUse
